import Mathlib

/-!
Verification of the Gray-Scott reaction-diffusion simulator.

The repository contains two implementations of the simulation core:
a sequential CPU version (src/src/App.tsx) operating on a Float32Array
double buffer, and a WebGL2 version (src/unnamed/part_000) whose step
and render kernels are fragment shaders ping-ponging between two
textures.  Both are embedded here over exact rationals: a grid is a
total function from coordinates to a pair of concentrations, and the
toroidal neighbor lookup mirrors the source's (i + d + n) % n wrap.
-/

namespace GrayScott

/-- A concentration grid: cell (x, y) holds the pair (a, b). -/
abbrev Grid : Type := Nat → Nat → ℚ × ℚ

/-- The scalar parameter set shared by both implementations
(the simulation-relevant fields of the React params state). -/
structure Params where
  dA : ℚ
  dB : ℚ
  feed : ℚ
  feedDiff : ℚ
  feedVariation : ℚ
  killMin : ℚ
  killMax : ℚ

/-- Toroidal index wrap, the source's (i + d + n) % n on an
offset d applied to index i of an axis of length n. -/
def wrapIdx (n : Nat) (i : Nat) (d : Int) : Nat :=
  (((i : Int) + d + (n : Int)) % (n : Int)).toNat

/-- The source's Math.max(0, Math.min(1, v)) / clamp(v, 0.0, 1.0). -/
def clamp01 (v : ℚ) : ℚ := max 0 (min 1 v)

/-- Stencil offsets -1..1 of the 3x3 Laplacian loops. -/
def offsets1 : List Int := [-1, 0, 1]

/-- Stencil weight: 0.05 for corners, 0.2 when dx == 0 or dy == 0,
-1.0 at the center, exactly as the nested ifs in both kernels. -/
def stencilWeight (dx dy : Int) : ℚ :=
  if dx = 0 ∧ dy = 0 then -1 else if dx = 0 ∨ dy = 0 then 1/5 else 1/20

/-- Discrete Laplacian of species A at (x, y): the accumulation
laplaceA += current[idx] * weight over the 3x3 toroidal stencil. -/
def laplaceA (W H : Nat) (g : Grid) (x y : Nat) : ℚ :=
  (offsets1.map fun dy =>
    (offsets1.map fun dx =>
      stencilWeight dx dy * (g (wrapIdx W x dx) (wrapIdx H y dy)).1).sum).sum

/-- Discrete Laplacian of species B at (x, y). -/
def laplaceB (W H : Nat) (g : Grid) (x y : Nat) : ℚ :=
  (offsets1.map fun dy =>
    (offsets1.map fun dx =>
      stencilWeight dx dy * (g (wrapIdx W x dx) (wrapIdx H y dy)).2).sum).sum

/-- feedRate = feed + ((feedVariation - 50) * feedDiff) / 100,
identical in the CPU kernel and the compute shader. -/
def feedRate (p : Params) : ℚ :=
  p.feed + ((p.feedVariation - 50) * p.feedDiff) / 100

/-- The CPU kernel's resolved kill rate:
killRate = killMin + (x / width) * (killMax - killMin), where
normalizedX = x / width.  The row index y is accepted (the rate is
resolved per cell inside the double loop) but does not occur in the
formula. -/
def killRate (p : Params) (W : Nat) (x y : Nat) : ℚ :=
  p.killMin + ((x : ℚ) / (W : ℚ)) * (p.killMax - p.killMin)

/-- One cell of the CPU step (App.tsx computeStep body):
Gray-Scott update followed by the clamp to [0, 1]. -/
def stepCellCPU (p : Params) (W H : Nat) (g : Grid) (x y : Nat) : ℚ × ℚ :=
  (clamp01 ((g x y).1 +
      (laplaceA W H g x y * p.dA - (g x y).1 * (g x y).2 * (g x y).2 +
        feedRate p * (1 - (g x y).1))),
   clamp01 ((g x y).2 +
      (laplaceB W H g x y * p.dB + (g x y).1 * (g x y).2 * (g x y).2 -
        (feedRate p + killRate p W x y) * (g x y).2)))

/-- The CPU step kernel over the whole grid (one computeStep call,
result as the buffer that becomes current after the swap). -/
def stepCPU (p : Params) (W H : Nat) (g : Grid) : Grid :=
  fun x y => stepCellCPU p W H g x y

/-- One fragment of the GPU compute shader: identical arithmetic
except that the kill rate is the uniform u_kill, which the driver
binds to params.killMin. -/
def stepCellGPU (p : Params) (W H : Nat) (g : Grid) (x y : Nat) : ℚ × ℚ :=
  (clamp01 ((g x y).1 +
      (p.dA * laplaceA W H g x y - (g x y).1 * (g x y).2 * (g x y).2 +
        feedRate p * (1 - (g x y).1))),
   clamp01 ((g x y).2 +
      (p.dB * laplaceB W H g x y + (g x y).1 * (g x y).2 * (g x y).2 -
        (feedRate p + p.killMin) * (g x y).2)))

/-- The GPU step kernel: one full-grid fragment dispatch. -/
def stepGPU (p : Params) (W H : Nat) (g : Grid) : Grid :=
  fun x y => stepCellGPU p W H g x y

/-- The all-A background written by initialization: every cell (1, 0). -/
def baseGrid : Grid := fun _ _ => (1, 0)

/-- Seed-spot offsets -3..3 of the initialization loops (radius 3). -/
def offsets3 : List Int := [-3, -2, -1, 0, 1, 2, 3]

/-- Cell (x, y) is written by the seed spot centered at c: some loop
offset (dx, dy) with dx*dx + dy*dy <= 9 lands on it after the wrap. -/
def spotCovers (W H : Nat) (c : Nat × Nat) (x y : Nat) : Prop :=
  ∃ dy ∈ offsets3, ∃ dx ∈ offsets3,
    dx * dx + dy * dy ≤ 9 ∧ x = wrapIdx W c.1 dx ∧ y = wrapIdx H c.2 dy

instance spotCoversDec (W H : Nat) (c : Nat × Nat) (x y : Nat) :
    Decidable (spotCovers W H c x y) := by
  unfold spotCovers; infer_instance

/-- Overlaying one seed spot: covered cells become (0, 1), the rest
keep their previous value. -/
def overlaySpot (W H : Nat) (c : Nat × Nat) (g : Grid) : Grid :=
  fun x y => if spotCovers W H c x y then (0, 1) else g x y

/-- initGrid / initializeTexture: all cells (1, 0), then the seed
spots are overlaid in order (each writes the same value (0, 1)). -/
def initGrid (W H : Nat) (centers : List (Nat × Nat)) : Grid :=
  centers.foldl (fun g c => overlaySpot W H c g) baseGrid

/-- The GPU driver's ping-pong batch: iteration i reads texture
i % 2 and renders into texture (i + 1) % 2 (part_000 computeStep). -/
def runBatch (f : Grid → Grid) (t : Grid × Grid) : Nat → Grid × Grid
  | 0 => t
  | n + 1 =>
    let s := runBatch f t n
    if n % 2 = 0 then (s.1, f s.1) else (f s.2, s.2)

/-- The texture the GPU render pass binds after a batch of iters
iterations: index (iters + 1) % 2 (part_000 render). -/
def displayedTexture (f : Grid → Grid) (t : Grid × Grid) (iters : Nat) : Grid :=
  if (iters + 1) % 2 = 0 then (runBatch f t iters).1 else (runBatch f t iters).2

/-- The intensity mapper applied to one concentration gs = a:
gs_map = (gs - threshold) / (0.9 - threshold), clamped to [0, 1],
then raised to the sharpness exponent.  The source guards neither
division; a zero denominator (threshold = 0.9) is embedded as none,
the failure of the computation to produce a defined value. -/
noncomputable def intensityOpt (threshold sharpness gs : ℚ) : Option ℝ :=
  if (9/10 : ℚ) - threshold = 0 then none
  else some (((clamp01 ((gs - threshold) / (9/10 - threshold)) : ℚ) : ℝ) ^
    (sharpness : ℝ))

/-! Helper lemmas shared by several claims. -/

lemma clamp01_nonneg (v : ℚ) : 0 ≤ clamp01 v := le_max_left 0 _

lemma clamp01_le_one (v : ℚ) : clamp01 v ≤ 1 :=
  max_le (by norm_num) (min_le_left 1 v)

lemma clamp01_mono {u v : ℚ} (h : u ≤ v) : clamp01 u ≤ clamp01 v :=
  max_le_max le_rfl (min_le_min le_rfl h)

lemma laplaceA_const (W H : Nat) (g : Grid) (cA cB : ℚ)
    (hg : ∀ x y, g x y = (cA, cB)) (x y : Nat) : laplaceA W H g x y = 0 := by
  simp only [laplaceA, offsets1, List.map_cons, List.map_nil, List.sum_cons,
    List.sum_nil, hg]
  norm_num [stencilWeight]
  ring

lemma laplaceB_const (W H : Nat) (g : Grid) (cA cB : ℚ)
    (hg : ∀ x y, g x y = (cA, cB)) (x y : Nat) : laplaceB W H g x y = 0 := by
  simp only [laplaceB, offsets1, List.map_cons, List.map_nil, List.sum_cons,
    List.sum_nil, hg]
  norm_num [stencilWeight]
  ring

/-- A parameter set with a negative (out-of-nominal-range) feed rate,
used as an adversarial witness input. -/
def pAdv : Params :=
  { dA := 1, dB := 1/2, feed := -(3/100), feedDiff := 15/1000,
    feedVariation := 50, killMin := 56/1000, killMax := 59/1000 }

/-- A half-saturated test grid. -/
def gHalf : Grid := fun _ _ => (1/2, 1/2)

/-- Claim C1: for every grid state and every parameter set (including
out-of-range values such as negative feed), after any positive number
of steps of either kernel, each cell's a and b lie in [0, 1], because
the kernel clamps both computed values before writing them. -/
theorem clamp_invariant (p : Params) (W H : Nat) (g : Grid) (n : Nat)
    (hn : 1 ≤ n) (x y : Nat) :
    (0 ≤ ((stepCPU p W H)^[n] g x y).1 ∧ ((stepCPU p W H)^[n] g x y).1 ≤ 1) ∧
    (0 ≤ ((stepCPU p W H)^[n] g x y).2 ∧ ((stepCPU p W H)^[n] g x y).2 ≤ 1) ∧
    (0 ≤ ((stepGPU p W H)^[n] g x y).1 ∧ ((stepGPU p W H)^[n] g x y).1 ≤ 1) ∧
    (0 ≤ ((stepGPU p W H)^[n] g x y).2 ∧ ((stepGPU p W H)^[n] g x y).2 ≤ 1) := by
  obtain ⟨m, rfl⟩ : ∃ m, n = m + 1 := ⟨n - 1, by omega⟩
  rw [Function.iterate_succ_apply' (stepCPU p W H),
    Function.iterate_succ_apply' (stepGPU p W H)]
  simp only [stepCPU, stepGPU, stepCellCPU, stepCellGPU]
  exact ⟨⟨clamp01_nonneg _, clamp01_le_one _⟩,
    ⟨clamp01_nonneg _, clamp01_le_one _⟩,
    ⟨clamp01_nonneg _, clamp01_le_one _⟩,
    ⟨clamp01_nonneg _, clamp01_le_one _⟩⟩

/-- Witness for C1 at an adversarial parameter set (negative feed),
one step on a 2x2 half-saturated grid. -/
theorem clamp_invariant_witness :
    (1 ≤ 1) ∧
    ((0 ≤ ((stepCPU pAdv 2 2)^[1] gHalf 0 0).1 ∧
        ((stepCPU pAdv 2 2)^[1] gHalf 0 0).1 ≤ 1) ∧
     (0 ≤ ((stepCPU pAdv 2 2)^[1] gHalf 0 0).2 ∧
        ((stepCPU pAdv 2 2)^[1] gHalf 0 0).2 ≤ 1) ∧
     (0 ≤ ((stepGPU pAdv 2 2)^[1] gHalf 0 0).1 ∧
        ((stepGPU pAdv 2 2)^[1] gHalf 0 0).1 ≤ 1) ∧
     (0 ≤ ((stepGPU pAdv 2 2)^[1] gHalf 0 0).2 ∧
        ((stepGPU pAdv 2 2)^[1] gHalf 0 0).2 ≤ 1)) :=
  ⟨le_refl 1, clamp_invariant pAdv 2 2 gHalf 1 (le_refl 1) 0 0⟩

/-- Claim C3: the CPU kernel's resolved kill rate at column x of a
width-W grid is killMin + (x/W) * (killMax - killMin); it is killMin
at column 0, killMin + ((W-1)/W) * (killMax - killMin) at the last
column, and independent of the row. -/
theorem killRate_gradient (p : Params) (W : Nat) (x y : Nat) (hW : 1 ≤ W) :
    killRate p W x y = p.killMin + ((x : ℚ) / (W : ℚ)) * (p.killMax - p.killMin) ∧
    killRate p W 0 y = p.killMin ∧
    killRate p W (W - 1) y =
      p.killMin + (((W : ℚ) - 1) / (W : ℚ)) * (p.killMax - p.killMin) ∧
    (∀ y', killRate p W x y' = killRate p W x y) := by
  refine ⟨rfl, ?_, ?_, fun y' => rfl⟩
  · simp [killRate]
  · unfold killRate
    rw [Nat.cast_sub hW, Nat.cast_one]

/-- Witness for C3 on a width-5 grid at column 2, row 7. -/
theorem killRate_gradient_witness :
    (1 ≤ 5) ∧
    (killRate pAdv 5 2 7 =
        pAdv.killMin + ((2 : ℚ) / (5 : ℚ)) * (pAdv.killMax - pAdv.killMin) ∧
     killRate pAdv 5 0 7 = pAdv.killMin ∧
     killRate pAdv 5 (5 - 1) 7 =
        pAdv.killMin + (((5 : ℚ) - 1) / (5 : ℚ)) * (pAdv.killMax - pAdv.killMin) ∧
     (∀ y', killRate pAdv 5 2 y' = killRate pAdv 5 2 7)) :=
  ⟨by norm_num, killRate_gradient pAdv 5 2 7 (by norm_num)⟩

lemma stepCPU_baseGrid (p : Params) (W H : Nat) :
    stepCPU p W H baseGrid = baseGrid := by
  funext x y
  unfold stepCPU stepCellCPU
  rw [laplaceA_const W H baseGrid 1 0 (fun _ _ => rfl),
    laplaceB_const W H baseGrid 1 0 (fun _ _ => rfl)]
  show (clamp01 (1 + (0 * p.dA - 1 * 0 * 0 + feedRate p * (1 - 1))),
      clamp01 (0 + (0 * p.dB + 1 * 0 * 0 - (feedRate p + killRate p W x y) * 0)))
    = (1, 0)
  norm_num [clamp01]

lemma stepGPU_baseGrid (p : Params) (W H : Nat) :
    stepGPU p W H baseGrid = baseGrid := by
  funext x y
  unfold stepGPU stepCellGPU
  rw [laplaceA_const W H baseGrid 1 0 (fun _ _ => rfl),
    laplaceB_const W H baseGrid 1 0 (fun _ _ => rfl)]
  show (clamp01 (1 + (p.dA * 0 - 1 * 0 * 0 + feedRate p * (1 - 1))),
      clamp01 (0 + (p.dB * 0 + 1 * 0 * 0 - (feedRate p + p.killMin) * 0)))
    = (1, 0)
  norm_num [clamp01]

/-- Claim C5: the uniform grid a=1, b=0 is an exact fixed point of
both step kernels, for every grid size and every parameter set: after
any number of steps every cell still holds exactly (1, 0). -/
theorem uniformA_fixed_point (p : Params) (W H n x y : Nat) :
    ((stepCPU p W H)^[n] baseGrid) x y = (1, 0) ∧
    ((stepGPU p W H)^[n] baseGrid) x y = (1, 0) := by
  rw [Function.iterate_fixed (stepCPU_baseGrid p W H) n,
    Function.iterate_fixed (stepGPU_baseGrid p W H) n]
  exact ⟨rfl, rfl⟩

/-- Claim C6: on a grid whose a values are constant everywhere and
whose b values are constant everywhere, the 3x3 stencil (corner 0.05,
edge 0.2, center -1.0, toroidal neighbors) yields a Laplacian of
exactly zero for both species at every cell, for sizes at least 3x3. -/
theorem laplacian_const_zero (W H : Nat) (g : Grid) (cA cB : ℚ)
    (hW : 3 ≤ W) (hH : 3 ≤ H) (hg : ∀ x y, g x y = (cA, cB)) (x y : Nat) :
    laplaceA W H g x y = 0 ∧ laplaceB W H g x y = 0 :=
  ⟨laplaceA_const W H g cA cB hg x y, laplaceB_const W H g cA cB hg x y⟩

/-- A constant test grid for the C6 witness. -/
def gConst : Grid := fun _ _ => (2/3, 1/3)

/-- Witness for C6 on a 3x3 grid of constant concentrations. -/
theorem laplacian_const_zero_witness :
    (3 ≤ 3) ∧ (∀ x y, gConst x y = ((2:ℚ)/3, (1:ℚ)/3)) ∧
    (laplaceA 3 3 gConst 1 1 = 0 ∧ laplaceB 3 3 gConst 1 1 = 0) :=
  ⟨le_refl 3, fun _ _ => rfl,
    laplacian_const_zero 3 3 gConst (2/3) (1/3) (le_refl 3) (le_refl 3)
      (fun _ _ => rfl) 1 1⟩

/-- Parameters whose kill range is non-degenerate (killMin = 0,
killMax = 1) and whose diffusion and feed rates are zero, isolating
the kill term. -/
def pKill : Params :=
  { dA := 0, dB := 0, feed := 0, feedDiff := 0, feedVariation := 50,
    killMin := 0, killMax := 1 }

/-- A grid holding b = 1/2 everywhere (a = 0). -/
def gB : Grid := fun _ _ => (0, 1/2)

/-- Counterexample to claim C2 as stated: on a 2x1 grid with
killMin = 0, killMax = 1 and b = 1/2 everywhere, the CPU kernel and
the GPU kernel disagree at cell (1, 0): the CPU kernel applies the
column-1 kill rate 1/2 (next b = 1/4) while the GPU kernel applies
the uniform u_kill = killMin = 0 (next b = 1/2). -/
theorem cpu_gpu_kernels_differ :
    stepCPU pKill 2 1 gB 1 0 ≠ stepGPU pKill 2 1 gB 1 0 := by
  unfold stepCPU stepGPU stepCellCPU stepCellGPU
  rw [laplaceA_const 2 1 gB 0 (1/2) (fun _ _ => rfl),
    laplaceB_const 2 1 gB 0 (1/2) (fun _ _ => rfl)]
  norm_num [gB, clamp01, feedRate, killRate, pKill, min_def, max_def,
    Prod.mk.injEq]

/-- Claim C2 (amended): whenever killMax = killMin, the sequential
CPU step kernel and the data-parallel GPU fragment-shader step kernel
compute the same next-state function on identical buffers and
parameters; in general the GPU kernel uses the uniform kill rate
killMin instead of the CPU kernel's horizontal kill gradient. -/
theorem cpu_gpu_kernels_agree (p : Params) (hk : p.killMax = p.killMin)
    (W H : Nat) (g : Grid) (x y : Nat) :
    stepCPU p W H g x y = stepGPU p W H g x y := by
  have hkr : killRate p W x y = p.killMin := by
    unfold killRate; rw [hk]; ring
  unfold stepCPU stepGPU stepCellCPU stepCellGPU
  rw [hkr]
  simp only [Prod.mk.injEq]
  constructor <;> · congr 1; ring

/-- A parameter set with a degenerate kill range killMax = killMin. -/
def pUniformKill : Params :=
  { dA := 1, dB := 1/2, feed := 3/100, feedDiff := 0, feedVariation := 50,
    killMin := 56/1000, killMax := 56/1000 }

/-- Witness for the amended C2 on a 2x2 grid at cell (1, 1). -/
theorem cpu_gpu_kernels_agree_witness :
    pUniformKill.killMax = pUniformKill.killMin ∧
    stepCPU pUniformKill 2 2 gHalf 1 1 = stepGPU pUniformKill 2 2 gHalf 1 1 :=
  ⟨rfl, cpu_gpu_kernels_agree pUniformKill rfl 2 2 gHalf 1 1⟩

/-- Parameters with all rates zero (feedVariation 50 is neutral),
under which one step still changes a half-saturated cell via the
reaction term a * b * b. -/
def pZero : Params :=
  { dA := 0, dB := 0, feed := 0, feedDiff := 0, feedVariation := 50,
    killMin := 0, killMax := 0 }

/-- The zeroed scratch texture (texture 1 is created with null data). -/
def gZero : Grid := fun _ _ => (0, 0)

/-- Claim C4 (code-bug evidence): after a one-iteration GPU batch on a
1x1 grid, the texture the render pass binds (index (iterations+1) % 2)
still holds the pre-batch state, not the result of the one kernel
application, which differs from it. -/
theorem render_reads_stale_texture :
    displayedTexture (stepGPU pZero 1 1) (gHalf, gZero) 1 0 0 = gHalf 0 0 ∧
    displayedTexture (stepGPU pZero 1 1) (gHalf, gZero) 1 0 0 ≠
      ((stepGPU pZero 1 1)^[1] gHalf) 0 0 := by
  constructor
  · rfl
  · have hd : displayedTexture (stepGPU pZero 1 1) (gHalf, gZero) 1 0 0
        = ((1 : ℚ)/2, (1 : ℚ)/2) := rfl
    rw [hd, Function.iterate_one]
    unfold stepGPU stepCellGPU
    rw [laplaceA_const 1 1 gHalf (1/2) (1/2) (fun _ _ => rfl),
      laplaceB_const 1 1 gHalf (1/2) (1/2) (fun _ _ => rfl)]
    norm_num [gHalf, clamp01, feedRate, pZero, min_def, max_def,
      Prod.mk.injEq]

/-- Claim C7 (code-bug evidence): at the configured threshold 0.9
(reachable, since the threshold slider's maximum is 0.9) the mapper's
denominator 0.9 - threshold is exactly zero and the unguarded division
produces no defined intensity value, for cell values on either side of
the threshold. -/
theorem threshold_degenerate_no_value :
    intensityOpt (9/10) (1/10) (1/2) = none ∧
    intensityOpt (9/10) (1/10) (19/20) = none := by
  norm_num [intensityOpt]

/-- Claim C8: with threshold 0.5 and sharpness 1, the mapper sends
a = 0.5 to intensity 0, a = 0.9 to intensity 1, and a = 0.7 to
intensity 0.5, via mapped = clamp((a - 0.5) / 0.4, 0, 1). -/
theorem intensity_map_concrete :
    intensityOpt (1/2) 1 (1/2) = some 0 ∧
    intensityOpt (1/2) 1 (9/10) = some 1 ∧
    intensityOpt (1/2) 1 (7/10) = some (1/2) := by
  norm_num [intensityOpt, clamp01, min_def, max_def, Real.rpow_one]

/-- Claim C10: for a fixed threshold below 0.9 and a fixed positive
sharpness, the mapped intensity is monotonically non-decreasing in the
cell's species-A concentration. -/
theorem intensity_monotone (t s a1 a2 : ℚ) (ht : t < 9/10) (hs : 0 < s)
    (h12 : a1 ≤ a2) :
    ∃ i1 i2 : ℝ, intensityOpt t s a1 = some i1 ∧
      intensityOpt t s a2 = some i2 ∧ i1 ≤ i2 := by
  have hdpos : (0 : ℚ) < 9/10 - t := by linarith
  have hd : (9/10 : ℚ) - t ≠ 0 := ne_of_gt hdpos
  refine ⟨((clamp01 ((a1 - t) / (9/10 - t)) : ℚ) : ℝ) ^ (s : ℝ),
    ((clamp01 ((a2 - t) / (9/10 - t)) : ℚ) : ℝ) ^ (s : ℝ), ?_, ?_, ?_⟩
  · unfold intensityOpt; rw [if_neg hd]
  · unfold intensityOpt; rw [if_neg hd]
  · have hmono : clamp01 ((a1 - t) / (9/10 - t)) ≤
        clamp01 ((a2 - t) / (9/10 - t)) :=
      clamp01_mono ((div_le_div_iff_of_pos_right hdpos).mpr (by linarith))
    exact Real.rpow_le_rpow (by exact_mod_cast clamp01_nonneg _)
      (by exact_mod_cast hmono) (by exact_mod_cast hs.le)

/-- Witness for C10 at threshold 0.5, sharpness 1, a = 0.5 and 0.7. -/
theorem intensity_monotone_witness :
    ((1 : ℚ)/2 < 9/10) ∧ ((0 : ℚ) < 1) ∧ ((1 : ℚ)/2 ≤ 7/10) ∧
    (∃ i1 i2 : ℝ, intensityOpt (1/2) 1 (1/2) = some i1 ∧
      intensityOpt (1/2) 1 (7/10) = some i2 ∧ i1 ≤ i2) :=
  ⟨by norm_num, by norm_num, by norm_num,
    intensity_monotone (1/2) 1 (1/2) (7/10) (by norm_num) (by norm_num)
      (by norm_num)⟩

lemma foldl_overlay (W H : Nat) (cs : List (Nat × Nat)) (g : Grid)
    (x y : Nat) :
    (cs.foldl (fun g c => overlaySpot W H c g) g) x y =
      if ∃ c ∈ cs, spotCovers W H c x y then (0, 1) else g x y := by
  induction cs generalizing g with
  | nil => simp
  | cons c cs ih =>
    rw [List.foldl_cons, ih]
    by_cases hc : spotCovers W H c x y
    · by_cases hcs : ∃ c' ∈ cs, spotCovers W H c' x y
      · simp [List.exists_mem_cons_iff, hc, hcs, overlaySpot]
      · simp [List.exists_mem_cons_iff, hc, hcs, overlaySpot]
    · by_cases hcs : ∃ c' ∈ cs, spotCovers W H c' x y
      · simp [List.exists_mem_cons_iff, hc, hcs, overlaySpot]
      · simp [List.exists_mem_cons_iff, hc, hcs, overlaySpot]

lemma spotCovers_iff (W H : Nat) (c : Nat × Nat) (x y : Nat) :
    spotCovers W H c x y ↔
      ∃ dx dy : Int, dx * dx + dy * dy ≤ 9 ∧
        x = wrapIdx W c.1 dx ∧ y = wrapIdx H c.2 dy := by
  constructor
  · rintro ⟨dy, _, dx, _, h1, h2, h3⟩
    exact ⟨dx, dy, h1, h2, h3⟩
  · rintro ⟨dx, dy, h1, h2, h3⟩
    have hbx : -3 ≤ dx ∧ dx ≤ 3 := by
      constructor <;> nlinarith [mul_self_nonneg dy, mul_self_nonneg dx]
    have hby : -3 ≤ dy ∧ dy ≤ 3 := by
      constructor <;> nlinarith [mul_self_nonneg dy, mul_self_nonneg dx]
    have hdx : dx ∈ offsets3 := by
      simp only [offsets3, List.mem_cons, List.not_mem_nil, or_false]
      omega
    have hdy : dy ∈ offsets3 := by
      simp only [offsets3, List.mem_cons, List.not_mem_nil, or_false]
      omega
    exact ⟨dy, hdy, dx, hdx, h1, h2, h3⟩

/-- Claim C9: after initialization with any list of 20 seed centers on
a W x H grid (W, H at least 1), a cell holds exactly (0, 1) if and
only if it is some center plus an offset (dx, dy) with
dx^2 + dy^2 <= 9, taken modulo (W, H) — so spots crossing an edge wrap
to the opposite edge — and every other cell holds exactly (1, 0). -/
theorem init_grid_characterization (W H : Nat)
    (centers : List (Nat × Nat)) (hW : 1 ≤ W) (hH : 1 ≤ H)
    (hlen : centers.length = 20) (x y : Nat) :
    (initGrid W H centers x y = (0, 1) ↔
      ∃ c ∈ centers, ∃ dx dy : Int, dx * dx + dy * dy ≤ 9 ∧
        x = wrapIdx W c.1 dx ∧ y = wrapIdx H c.2 dy) ∧
    ((¬ ∃ c ∈ centers, ∃ dx dy : Int, dx * dx + dy * dy ≤ 9 ∧
        x = wrapIdx W c.1 dx ∧ y = wrapIdx H c.2 dy) →
      initGrid W H centers x y = (1, 0)) := by
  have key : (∃ c ∈ centers, spotCovers W H c x y) ↔
      (∃ c ∈ centers, ∃ dx dy : Int, dx * dx + dy * dy ≤ 9 ∧
        x = wrapIdx W c.1 dx ∧ y = wrapIdx H c.2 dy) :=
    exists_congr fun c => and_congr_right fun _ => spotCovers_iff W H c x y
  unfold initGrid
  rw [foldl_overlay]
  by_cases hcov : ∃ c ∈ centers, spotCovers W H c x y
  · rw [if_pos hcov]
    exact ⟨⟨fun _ => key.mp hcov, fun _ => rfl⟩,
      fun hn => absurd (key.mp hcov) hn⟩
  · rw [if_neg hcov]
    refine ⟨⟨fun h => ?_, fun h => absurd (key.mpr h) hcov⟩, fun _ => rfl⟩
    exact absurd h (by norm_num [baseGrid, Prod.ext_iff])

/-- Twenty concrete seed centers for the C9 witness. -/
def centers20 : List (Nat × Nat) :=
  [(0, 0), (1, 1), (2, 2), (3, 3), (4, 4), (5, 5), (6, 6), (7, 7),
   (0, 4), (4, 0), (2, 6), (6, 2), (1, 5), (5, 1), (3, 7), (7, 3),
   (0, 2), (2, 0), (4, 6), (6, 4)]

/-- Witness for C9 on an 8x8 grid at cell (1, 0). -/
theorem init_grid_characterization_witness :
    (1 ≤ 8) ∧ (centers20.length = 20) ∧
    ((initGrid 8 8 centers20 1 0 = (0, 1) ↔
      ∃ c ∈ centers20, ∃ dx dy : Int, dx * dx + dy * dy ≤ 9 ∧
        1 = wrapIdx 8 c.1 dx ∧ 0 = wrapIdx 8 c.2 dy) ∧
    ((¬ ∃ c ∈ centers20, ∃ dx dy : Int, dx * dx + dy * dy ≤ 9 ∧
        1 = wrapIdx 8 c.1 dx ∧ 0 = wrapIdx 8 c.2 dy) →
      initGrid 8 8 centers20 1 0 = (1, 0))) :=
  ⟨by norm_num, by decide,
    init_grid_characterization 8 8 centers20 (by norm_num) (by norm_num)
      (by decide) 1 0⟩

end GrayScott
